import Mathlib

/-!
Shallow embedding of the chip8_test CHIP-8 emulator (src/src/opcodes.rs,
src/src/emulator.rs, src/src/display.rs) and verification of the claims
about it.

Modelling conventions:
* Machine integers (u8 / u16) are modelled as Nat with explicit reductions
  modulo 2^8 / 2^16 exactly where the Rust code wraps.  Rust integer
  overflow is modelled with release-mode two-complement wrapping semantics.
* Durations are modelled as whole milliseconds (Nat); the source compares
  and subtracts std::time::Duration values, which on the millisecond-valued
  inputs used here coincides with Nat arithmetic.
* Fallible operations (slice indexing out of bounds, expect on an empty
  VecDeque) are modelled with Option, where none marks the aborting case.
* Arrays ([u8; 4096], [Register; 16], [bool; 16], the pixel grid) are
  modelled as total functions from Nat indices; the bounds checks that the
  source performs before indexing are modelled explicitly where they can
  fail.
-/

namespace Chip8

/-- Data extracted from the 16-bit opcode, mirroring struct OpCodeData of
src/src/opcodes.rs. -/
structure OpCodeData where
  full_opcode : Nat
  x : Nat
  y : Nat
  n : Nat
  nn : Nat
  nnn : Nat
  deriving Repr, DecidableEq

/-- Embedding of OpCodeData::decode (src/src/opcodes.rs lines 26-39).
BigEndian::write_u16 splits the u16 into the high byte bytes[0] and the low
byte bytes[1]; the fields are then extracted with the same bit operations
as the source. -/
def OpCodeData.decode (opcode_bytes : Nat) : OpCodeData :=
  let b0 := opcode_bytes / 256 % 256
  let b1 := opcode_bytes % 256
  { full_opcode := opcode_bytes
    x := b0 &&& 0x0F
    y := (b1 &&& 0xF0) >>> 4
    n := b1 &&& 0x0F
    nn := b1
    nnn := ((b0 &&& 0x000F) <<< 8) ||| b1 }

/-- Embedding of the while loop of update_timer (src/src/emulator.rs lines
170-183): while the accumulated time exceeds the 17 ms decrement period,
decrement the register, with the special reset case once the register is
about to fall below 1.  Returns (register, since_last_update). -/
def timerLoop (reg acc : Nat) : Nat × Nat :=
  if h : 17 < acc then
    if 1 < reg then
      timerLoop (reg - 1) (acc - 17)
    else
      (0, 0)
  else
    (reg, acc)
termination_by acc
decreasing_by omega

/-- Embedding of update_timer (src/src/emulator.rs lines 158-188): a timer
register together with its accumulator, fed an elapsed duration in
milliseconds.  Returns the new (register, since_last_update) pair. -/
def update_timer (reg acc time_delta : Nat) : Nat × Nat :=
  if 0 < reg then timerLoop reg (acc + time_delta) else (reg, acc)

/-- One timer update with a 17 ms elapsed duration, acting on a
(register, accumulator) pair. -/
def timerStep17 (p : Nat × Nat) : Nat × Nat := update_timer p.1 p.2 17

/-- The 64 x 32 pixel grid of src/src/display.rs, indexed as pixels y x
(row first, like the source's pixels[y][x]).  The source's fixed-size
array is modelled as a total function; coordinates outside the screen are
never touched by the operations below. -/
def DisplayGrid : Type := Nat → Nat → Bool

/-- Flips the single pixel at row y, column x. -/
def flipPixel (D : DisplayGrid) (y x : Nat) : DisplayGrid :=
  fun y2 x2 => if y2 = y ∧ x2 = x then !(D y2 x2) else D y2 x2

/-- Embedding of Display::apply_row (src/src/display.rs lines 83-109) for
the single-byte rows produced by apply_sprite (row = [byte], len_bits = 8).
The u8 sum coordinates.x + len_bits wraps at 256; the loop XORs bit
7 - (x % 8) of the byte into column start + x for x below end - start.
The caller (apply_sprite) only ever passes cy below 32, matching the
source's indexing of pixels[coordinates.y]. -/
def apply_row (D : DisplayGrid) (byte cx cy : Nat) : DisplayGrid :=
  let e := min ((cx + 8) % 256) 64
  if e ≤ cx then D
  else
    (List.range (e - cx)).foldl
      (fun d x => if Nat.testBit byte (7 - x % 8) then flipPixel d cy (cx + x) else d) D

/-- Loop of Display::apply_sprite (src/src/display.rs lines 69-81): sprite
byte number i is drawn as the row at coordinates.y + i, stopping as soon
as i + coordinates.y reaches 32.  Coordinates::new(0, i) reduces i modulo
32 before the coordinate addition, as in the source. -/
def applySpriteAux (D : DisplayGrid) (sprite : List Nat) (cx cy i : Nat) : DisplayGrid :=
  match sprite with
  | [] => D
  | b :: rest =>
    if 32 ≤ i + cy then D
    else applySpriteAux (apply_row D b cx (cy + i % 32)) rest cx cy (i + 1)

/-- Embedding of Display::apply_sprite (src/src/display.rs lines 69-81). -/
def apply_sprite (D : DisplayGrid) (sprite : List Nat) (cx cy : Nat) : DisplayGrid :=
  applySpriteAux D sprite cx cy 0

/-- Pixel (py, px) is hit by the row of byte b drawn at row y anchored at
column cx: the row matches, the column lies in [cx, min(cx+8, 64)) (with
the u8 wrap of cx + 8), and the corresponding sprite bit is 1. -/
def rowHit (b cx y py px : Nat) : Bool :=
  decide (py = y) && decide (cx ≤ px) && decide (px < min ((cx + 8) % 256) 64) &&
    Nat.testBit b (7 - (px - cx))

/-- Pixel (py, px) is flipped an odd number of times by the sprite rows
drawn from row counter i on: the per-row hits combined with xor, mirroring
the successive XOR draws of applySpriteAux. -/
def spriteHit (S : List Nat) (cx cy i py px : Nat) : Bool :=
  match S with
  | [] => false
  | b :: rest =>
    if 32 ≤ i + cy then false
    else xor (rowHit b cx (cy + i % 32) py px) (spriteHit rest cx cy (i + 1) py px)

/-- The clipping discipline that the specification describes for a sprite
anchored at (cx, cy) with cx already reduced modulo 64 and cy modulo 32:
pixel (py, px) changes exactly when its row is one of the sprite rows that
fits above the bottom edge, its column lies in [cx, min(cx+8, 64)), and
the corresponding sprite bit (MSB first) is 1. -/
def spriteSpec (S : List Nat) (cx cy py px : Nat) : Bool :=
  decide (cy ≤ py) && decide (py - cy < S.length) && decide (py < 32) &&
  decide (cx ≤ px) && decide (px < cx + 8) && decide (px < 64) &&
  Nat.testBit (S.getD (py - cy) 0) (7 - (px - cx))

/-- Error enum of src/src/emulator.rs lines 36-40. -/
inductive Error where
  | UnsupportedOpcode (opcode : Nat)
  deriving Repr, DecidableEq

/-- Machine state, mirroring struct Chip8State of src/src/emulator.rs
lines 16-29.  The [u8; 4096] memory, the [Register; 16] register file and
the [bool; 0x10] key snapshot are modelled as total functions from Nat
indices; the VecDeque stack is modelled as a list whose head is the back
(push_back conses, pop_back takes the head); Durations are milliseconds. -/
structure Chip8State where
  memory : Nat → Nat
  display : DisplayGrid
  pc : Nat
  stack : List Nat
  index_register : Nat
  delay_timer : Nat
  since_last_delay_update : Nat
  sound_timer : Nat
  since_last_sound_update : Nat
  gp_registers : Nat → Nat
  key_state : Nat → Bool

/-- Pointwise update of a register file or memory function. -/
def updFn (f : Nat → Nat) (i v : Nat) : Nat → Nat :=
  fun j => if j = i then v else f j

/-- Wrapping u8 addition (Rust release-mode overflow semantics). -/
def wrapping_add8 (a b : Nat) : Nat := (a + b) % 256

/-- Wrapping u8 subtraction; on u8-ranged inputs this is
a.wrapping_sub(b). -/
def wrapping_sub8 (a b : Nat) : Nat := (a + 256 - b % 256) % 256

/-- Saturating u8 addition, as used by AddRegisters. -/
def saturating_add8 (a b : Nat) : Nat := min (a + b) 255

/-- Embedding of Chip8State::is_pressed (src/src/emulator.rs lines
267-269).  The source indexes the [bool; 0x10] array directly with the
register value, so a key number of 16 or more is an out-of-bounds access
(none). -/
def Chip8State.is_pressed (s : Chip8State) (key : Nat) : Option Bool :=
  if key < 16 then some (s.key_state key) else none

/-- ClearScreen, opcode 00E0 (src/src/opcodes.rs lines 56-71). -/
def clearScreenExec (s : Chip8State) (_ : OpCodeData) : Option Chip8State :=
  some { s with display := fun _ _ => false }

/-- Jump, opcode 1NNN (src/src/opcodes.rs lines 73-88). -/
def jumpExec (s : Chip8State) (d : OpCodeData) : Option Chip8State :=
  some { s with pc := d.nnn }

/-- SetRegisterConst, opcode 6XNN (src/src/opcodes.rs lines 90-105). -/
def setRegisterConstExec (s : Chip8State) (d : OpCodeData) : Option Chip8State :=
  some { s with gp_registers := updFn s.gp_registers d.x d.nn }

/-- AddRegisterConst, opcode 7XNN (src/src/opcodes.rs lines 107-122);
the Register AddAssign wraps via overflowing_add. -/
def addRegisterConstExec (s : Chip8State) (d : OpCodeData) : Option Chip8State :=
  some { s with
    gp_registers := updFn s.gp_registers d.x (wrapping_add8 (s.gp_registers d.x) d.nn) }

/-- SetIndexRegister, opcode ANNN (src/src/opcodes.rs lines 124-139). -/
def setIndexRegisterExec (s : Chip8State) (d : OpCodeData) : Option Chip8State :=
  some { s with index_register := d.nnn }

/-- DisplayDraw, opcode DXYN (src/src/opcodes.rs lines 141-164).  The
anchor is reduced modulo 64 / 32 by Coordinates::new; the sprite is the
memory slice [index, index + n), whose slicing aborts past 0x1000. -/
def displayDrawExec (s : Chip8State) (d : OpCodeData) : Option Chip8State :=
  if s.index_register + d.n ≤ 4096 then
    some { s with
      display := apply_sprite s.display
          ((List.range d.n).map (fun i => s.memory (s.index_register + i)))
          (s.gp_registers d.x % 64) (s.gp_registers d.y % 32) }
  else none

/-- SubroutineCall, opcode 2NNN (src/src/opcodes.rs lines 166-182). -/
def subroutineCallExec (s : Chip8State) (d : OpCodeData) : Option Chip8State :=
  some { s with stack := s.pc :: s.stack, pc := d.nnn }

/-- SubroutineReturn, opcode 00EE (src/src/opcodes.rs lines 184-200);
pop_back on an empty stack aborts. -/
def subroutineReturnExec (s : Chip8State) (_ : OpCodeData) : Option Chip8State :=
  match s.stack with
  | [] => none
  | a :: rest => some { s with pc := a, stack := rest }

/-- SkipConstEqual, opcode 3XNN (src/src/opcodes.rs lines 202-219). -/
def skipConstEqualExec (s : Chip8State) (d : OpCodeData) : Option Chip8State :=
  some (if s.gp_registers d.x = d.nn then { s with pc := (s.pc + 2) % 65536 } else s)

/-- SkipConstNotEqual, opcode 4XNN (src/src/opcodes.rs lines 221-238). -/
def skipConstNotEqualExec (s : Chip8State) (d : OpCodeData) : Option Chip8State :=
  some (if s.gp_registers d.x ≠ d.nn then { s with pc := (s.pc + 2) % 65536 } else s)

/-- SkipRegistersEqual, opcode 5XY0 (src/src/opcodes.rs lines 240-257). -/
def skipRegistersEqualExec (s : Chip8State) (d : OpCodeData) : Option Chip8State :=
  some (if s.gp_registers d.x = s.gp_registers d.y
    then { s with pc := (s.pc + 2) % 65536 } else s)

/-- SkipRegistersNotEqual, opcode 9XY0 (src/src/opcodes.rs lines 259-276). -/
def skipRegistersNotEqualExec (s : Chip8State) (d : OpCodeData) : Option Chip8State :=
  some (if s.gp_registers d.x ≠ s.gp_registers d.y
    then { s with pc := (s.pc + 2) % 65536 } else s)

/-- SetRegisterRegister, opcode 8XY0 (src/src/opcodes.rs lines 278-293). -/
def setRegisterRegisterExec (s : Chip8State) (d : OpCodeData) : Option Chip8State :=
  some { s with gp_registers := updFn s.gp_registers d.x (s.gp_registers d.y) }

/-- BinaryOr, opcode 8XY1 (src/src/opcodes.rs lines 295-310). -/
def binaryOrExec (s : Chip8State) (d : OpCodeData) : Option Chip8State :=
  some { s with
    gp_registers := updFn s.gp_registers d.x (s.gp_registers d.x ||| s.gp_registers d.y) }

/-- BinaryAnd, opcode 8XY2 (src/src/opcodes.rs lines 312-327). -/
def binaryAndExec (s : Chip8State) (d : OpCodeData) : Option Chip8State :=
  some { s with
    gp_registers := updFn s.gp_registers d.x (s.gp_registers d.x &&& s.gp_registers d.y) }

/-- BinaryXor, opcode 8XY3 (src/src/opcodes.rs lines 329-344). -/
def binaryXorExec (s : Chip8State) (d : OpCodeData) : Option Chip8State :=
  some { s with
    gp_registers := updFn s.gp_registers d.x (s.gp_registers d.x ^^^ s.gp_registers d.y) }

/-- AddRegisters, opcode 8XY4 (src/src/opcodes.rs lines 346-366): the X
register receives the wrapping sum, then register 0xF receives 1 exactly
when the saturating and wrapping sums differ. -/
def addRegistersExec (s : Chip8State) (d : OpCodeData) : Option Chip8State :=
  let x_reg_val := s.gp_registers d.x
  let y_reg_val := s.gp_registers d.y
  let sat_add := saturating_add8 x_reg_val y_reg_val
  let wrap_add := wrapping_add8 x_reg_val y_reg_val
  let gp1 := updFn s.gp_registers d.x wrap_add
  some { s with gp_registers := updFn gp1 15 (if sat_add ≠ wrap_add then 1 else 0) }

/-- SubtractRegisters, opcode 8XY5 (src/src/opcodes.rs lines 368-386). -/
def subtractRegistersExec (s : Chip8State) (d : OpCodeData) : Option Chip8State :=
  let x_reg_val := s.gp_registers d.x
  let y_reg_val := s.gp_registers d.y
  let gp1 := updFn s.gp_registers d.x (wrapping_sub8 x_reg_val y_reg_val)
  some { s with gp_registers := updFn gp1 15 (if y_reg_val > x_reg_val then 0 else 1) }

/-- SubtractRegistersReverse, opcode 8XY7 (src/src/opcodes.rs lines
388-406). -/
def subtractRegistersReverseExec (s : Chip8State) (d : OpCodeData) : Option Chip8State :=
  let x_reg_val := s.gp_registers d.x
  let y_reg_val := s.gp_registers d.y
  let gp1 := updFn s.gp_registers d.x (wrapping_sub8 y_reg_val x_reg_val)
  some { s with gp_registers := updFn gp1 15 (if x_reg_val > y_reg_val then 0 else 1) }

/-- ShiftRegisterRight, opcode 8XY6 (src/src/opcodes.rs lines 408-426). -/
def shiftRegisterRightExec (s : Chip8State) (d : OpCodeData) : Option Chip8State :=
  let a := s.gp_registers d.x
  let removed_bit := a &&& 0x01
  let gp1 := updFn s.gp_registers d.x (a >>> 1)
  some { s with gp_registers := updFn gp1 15 removed_bit }

/-- ShiftRegisterLeft, opcode 8XYE (src/src/opcodes.rs lines 428-446);
the u8 left shift drops the high bit. -/
def shiftRegisterLeftExec (s : Chip8State) (d : OpCodeData) : Option Chip8State :=
  let a := s.gp_registers d.x
  let removed_bit := if a &&& 0x80 = 0 then 0x00 else 0x01
  let gp1 := updFn s.gp_registers d.x ((a <<< 1) % 256)
  some { s with gp_registers := updFn gp1 15 removed_bit }

/-- JumpOffset, opcode BNNN (src/src/opcodes.rs lines 448-463); the u16
sum wraps at 2^16. -/
def jumpOffsetExec (s : Chip8State) (d : OpCodeData) : Option Chip8State :=
  some { s with pc := (s.pc + d.nnn + s.gp_registers 0) % 65536 }

/-- Random, opcode CXNN (src/src/opcodes.rs lines 465-480).  The byte
drawn from rand::random is an external input of the step, passed in as
rnd. -/
def randomExec (rnd : Nat) (s : Chip8State) (d : OpCodeData) : Option Chip8State :=
  some { s with gp_registers := updFn s.gp_registers d.x (rnd &&& d.nn) }

/-- SkipIfKey, opcode EX9E (src/src/opcodes.rs lines 482-500); the key
looked up is the raw X register value, via is_pressed. -/
def skipIfKeyExec (s : Chip8State) (d : OpCodeData) : Option Chip8State :=
  match s.is_pressed (s.gp_registers d.x) with
  | none => none
  | some b => some (if b then { s with pc := (s.pc + 2) % 65536 } else s)

/-- SkipIfNotKey, opcode EXA1 (src/src/opcodes.rs lines 502-521). -/
def skipIfNotKeyExec (s : Chip8State) (d : OpCodeData) : Option Chip8State :=
  match s.is_pressed (s.gp_registers d.x) with
  | none => none
  | some b => some (if b then s else { s with pc := (s.pc + 2) % 65536 })

/-- ReadDelayTimer, opcode FX07 (src/src/opcodes.rs lines 523-538). -/
def readDelayTimerExec (s : Chip8State) (d : OpCodeData) : Option Chip8State :=
  some { s with gp_registers := updFn s.gp_registers d.x s.delay_timer }

/-- SetDelayTimer, opcode FX15 (src/src/opcodes.rs lines 540-555). -/
def setDelayTimerExec (s : Chip8State) (d : OpCodeData) : Option Chip8State :=
  some { s with delay_timer := s.gp_registers d.x }

/-- SetSoundTimer, opcode FX18 (src/src/opcodes.rs lines 557-572). -/
def setSoundTimerExec (s : Chip8State) (d : OpCodeData) : Option Chip8State :=
  some { s with sound_timer := s.gp_registers d.x }

/-- AddIndexRegister, opcode FX1E (src/src/opcodes.rs lines 574-591): the
index register receives the wrapping u16 sum, then register 0xF receives
1 exactly when the new index value exceeds 0xFFF. -/
def addIndexRegisterExec (s : Chip8State) (d : OpCodeData) : Option Chip8State :=
  let idx := (s.index_register + s.gp_registers d.x) % 65536
  some { s with
    index_register := idx,
    gp_registers := updFn s.gp_registers 15 (if 0xFFF < idx then 1 else 0) }

/-- GetKey, opcode FX1A as implemented (src/src/opcodes.rs lines 593-611):
when the checked key is not pressed, PC is rewound by 2 (u16 wrap). -/
def getKeyExec (s : Chip8State) (d : OpCodeData) : Option Chip8State :=
  match s.is_pressed (s.gp_registers d.x) with
  | none => none
  | some b => some (if b then s else { s with pc := (s.pc + 65536 - 2) % 65536 })

/-- ReadFontCharacter, opcode FX29 (src/src/opcodes.rs lines 613-628). -/
def readFontCharacterExec (s : Chip8State) (d : OpCodeData) : Option Chip8State :=
  some { s with index_register := 0x50 + s.gp_registers d.x * 0x5 }

/-- DecimalDecoding, opcode FX33 (src/src/opcodes.rs lines 630-651):
writes the three decimal digits via memory_set, which aborts when the
write would extend past 0x1000. -/
def decimalDecodingExec (s : Chip8State) (d : OpCodeData) : Option Chip8State :=
  let v := s.gp_registers d.x
  if s.index_register + 3 ≤ 4096 then
    some { s with
      memory := updFn (updFn (updFn s.memory s.index_register (v / 100))
          (s.index_register + 1) (v % 100 / 10)) (s.index_register + 2) (v % 10) }
  else none

/-- StoreMemory, opcode FX55 (src/src/opcodes.rs lines 653-671): copies
registers 0 through X into memory starting at the index register; the
direct memory indexing aborts past 0xFFF. -/
def storeMemoryExec (s : Chip8State) (d : OpCodeData) : Option Chip8State :=
  if s.index_register + d.x < 4096 then
    some { s with
      memory := fun a =>
        if s.index_register ≤ a ∧ a ≤ s.index_register + d.x
        then s.gp_registers (a - s.index_register) else s.memory a }
  else none

/-- LoadMemory, opcode FX65 (src/src/opcodes.rs lines 673-691). -/
def loadMemoryExec (s : Chip8State) (d : OpCodeData) : Option Chip8State :=
  if s.index_register + d.x < 4096 then
    some { s with
      gp_registers := fun r =>
        if r ≤ d.x then s.memory (s.index_register + r) else s.gp_registers r }
  else none

/-- One entry of the instruction table: the (mask, value) pair of the
OpCodeReader trait together with its execute function. -/
structure Instr where
  mask : Nat
  val : Nat
  exec : Chip8State → OpCodeData → Option Chip8State

/-- The ordered instruction table built in EmulatedChip8::new
(src/src/emulator.rs lines 48-88), with the (mask, value) pairs of each
OpCodeReader implementation in src/src/opcodes.rs.  rnd is the byte that
rand::random would produce for the Random instruction this step. -/
def supported_instructions (rnd : Nat) : List Instr :=
  [ ⟨0xffff, 0x00e0, clearScreenExec⟩,
    ⟨0xf000, 0x1000, jumpExec⟩,
    ⟨0xf000, 0x6000, setRegisterConstExec⟩,
    ⟨0xf000, 0x7000, addRegisterConstExec⟩,
    ⟨0xf000, 0xA000, setIndexRegisterExec⟩,
    ⟨0xf000, 0xD000, displayDrawExec⟩,
    ⟨0xf000, 0x2000, subroutineCallExec⟩,
    ⟨0xffff, 0x00EE, subroutineReturnExec⟩,
    ⟨0xf000, 0x3000, skipConstEqualExec⟩,
    ⟨0xf000, 0x4000, skipConstNotEqualExec⟩,
    ⟨0xf00f, 0x5000, skipRegistersEqualExec⟩,
    ⟨0xf00f, 0x9000, skipRegistersNotEqualExec⟩,
    ⟨0xf00f, 0x8000, setRegisterRegisterExec⟩,
    ⟨0xf00f, 0x8001, binaryOrExec⟩,
    ⟨0xf00f, 0x8002, binaryAndExec⟩,
    ⟨0xf00f, 0x8003, binaryXorExec⟩,
    ⟨0xf00f, 0x8004, addRegistersExec⟩,
    ⟨0xf00f, 0x8005, subtractRegistersExec⟩,
    ⟨0xf00f, 0x8007, subtractRegistersReverseExec⟩,
    ⟨0xf00f, 0x8006, shiftRegisterRightExec⟩,
    ⟨0xf00f, 0x800E, shiftRegisterLeftExec⟩,
    ⟨0xf000, 0xB000, jumpOffsetExec⟩,
    ⟨0xf000, 0xC000, randomExec rnd⟩,
    ⟨0xf0ff, 0xE09E, skipIfKeyExec⟩,
    ⟨0xf0ff, 0xE0A1, skipIfNotKeyExec⟩,
    ⟨0xf0ff, 0xF007, readDelayTimerExec⟩,
    ⟨0xf0ff, 0xF015, setDelayTimerExec⟩,
    ⟨0xf0ff, 0xF018, setSoundTimerExec⟩,
    ⟨0xf0ff, 0xF01E, addIndexRegisterExec⟩,
    ⟨0xf0ff, 0xF01A, getKeyExec⟩,
    ⟨0xf0ff, 0xF029, readFontCharacterExec⟩,
    ⟨0xf0ff, 0xF033, decimalDecodingExec⟩,
    ⟨0xf0ff, 0xF055, storeMemoryExec⟩,
    ⟨0xf0ff, 0xF065, loadMemoryExec⟩ ]

/-- Embedding of the dispatch loop of EmulatedChip8::execute
(src/src/emulator.rs lines 143-153): scan the table in order, run the
first instruction whose (full_opcode and mask) equals its value, and fail
with UnsupportedOpcode when none matches.  The outer Option propagates an
abort inside an instruction; the inner Except is the Result of execute. -/
def executeAux (d : OpCodeData) : List Instr → Chip8State → Option (Except Error Unit × Chip8State)
  | [], s => some (Except.error (Error.UnsupportedOpcode d.full_opcode), s)
  | instr :: rest, s =>
    if d.full_opcode &&& instr.mask = instr.val then
      (instr.exec s d).map (fun s2 => (Except.ok (), s2))
    else executeAux d rest s

/-- EmulatedChip8::execute over the full instruction table. -/
def execute (rnd : Nat) (s : Chip8State) (d : OpCodeData) :
    Option (Except Error Unit × Chip8State) :=
  executeAux d (supported_instructions rnd) s

/-- The memory read of EmulatedChip8::fetch (src/src/emulator.rs lines
132-137): BigEndian::read_u16 on the slice memory[pc..] of the 4096-byte
memory, which needs at least two bytes after pc; otherwise the slice
access aborts (none). -/
def fetchOpt (mem : Nat → Nat) (pc : Nat) : Option Nat :=
  if pc + 2 ≤ 4096 then some (mem pc * 256 + mem (pc + 1)) else none

/-- EmulatedChip8::update_timers (src/src/emulator.rs lines 119-130). -/
def update_timers (s : Chip8State) (time_delta : Nat) : Chip8State :=
  let dl := update_timer s.delay_timer s.since_last_delay_update time_delta
  let sn := update_timer s.sound_timer s.since_last_sound_update time_delta
  { s with delay_timer := dl.1, since_last_delay_update := dl.2,
           sound_timer := sn.1, since_last_sound_update := sn.2 }

/-- Embedding of EmulatedChip8::step (src/src/emulator.rs lines 106-112):
store the key snapshot, decay the timers, fetch (which post-increments PC
by 2 with u16 wrap), decode, execute.  rnd is the byte rand::random would
return; none is an aborted step (out-of-bounds access inside fetch or an
instruction). -/
def step (rnd : Nat) (s : Chip8State) (key_input : Nat → Bool) (time_delta : Nat) :
    Option (Except Error Unit × Chip8State) :=
  let s1 := { s with key_state := key_input }
  let s2 := update_timers s1 time_delta
  match fetchOpt s2.memory s2.pc with
  | none => none
  | some opcode_bytes =>
    let s3 := { s2 with pc := (s2.pc + 2) % 65536 }
    execute rnd s3 (OpCodeData.decode opcode_bytes)

/-- The freshly initialised machine state of Chip8State::new
(src/src/emulator.rs lines 197-211): everything zero, display dark, no
keys pressed. -/
def zeroState : Chip8State :=
  { memory := fun _ => 0
    display := fun _ _ => false
    pc := 0
    stack := []
    index_register := 0
    delay_timer := 0
    since_last_delay_update := 0
    sound_timer := 0
    since_last_sound_update := 0
    gp_registers := fun _ => 0
    key_state := fun _ => false }

/-- Concrete state for exercising AddRegisters: register 2 holds 0xA2 and
register 3 holds 0x7F (the overflowing example of the specification),
register 0xF holds a stale value 0xDF. -/
def addWitState : Chip8State :=
  { zeroState with gp_registers := fun i =>
      if i = 2 then 0xA2 else if i = 3 then 0x7F else if i = 15 then 0xDF else 0 }

/-- Concrete state for exercising the key-skip opcodes out of range:
register 5 holds 16 (so the raw key index is one past the key array)
while every key is pressed. -/
def keyOutOfRangeState : Chip8State :=
  { zeroState with
    gp_registers := fun i => if i = 5 then 16 else 0
    key_state := fun _ => true }

/-- Concrete state for exercising the key-skip opcodes in range: register
5 holds 0xB and exactly key 0xB is pressed. -/
def keyInRangeState : Chip8State :=
  { zeroState with
    gp_registers := fun i => if i = 5 then 0xB else 0
    key_state := fun k => k = 0xB }

/-- A concrete display with a single lit pixel at row 10, column 5. -/
def oneDotGrid : DisplayGrid := fun y x => decide (y = 10) && decide (x = 5)

/-- The state that the failing step of the unsupported-opcode witness ends
in: only PC moved, from 0 to 2. -/
def unsupportedWitnessEnd : Chip8State := { zeroState with pc := 2 }

/-- A state whose program counter sits at the last memory address, where
fetch can no longer read two bytes. -/
def highPcState : Chip8State := { zeroState with pc := 0xFFF }

/-! ### Helper lemmas -/

theorem land_two_pow_sub_one (a k : Nat) : a &&& (2 ^ k - 1) = a % 2 ^ k := by
  apply Nat.eq_of_testBit_eq
  intro i
  rw [Nat.testBit_land, Nat.testBit_mod_two_pow, Nat.testBit_two_pow_sub_one, Bool.and_comm]

theorem land_fifteen (a : Nat) : a &&& 15 = a % 16 := by
  have h := land_two_pow_sub_one a 4
  norm_num at h
  exact h

theorem lor_disjoint_pow (a b k : Nat) (h : a < 2 ^ k) :
    (b * 2 ^ k) ||| a = b * 2 ^ k + a := by
  apply Nat.eq_of_testBit_eq
  intro i
  rw [Nat.testBit_lor, Nat.mul_comm b, Nat.testBit_mul_pow_two_add _ h i,
    Nat.testBit_mul_pow_two]
  rcases lt_or_ge i k with hik | hik
  · simp [hik, Nat.not_le.mpr hik]
  · simp [Nat.not_lt.mpr hik, hik,
      Nat.testBit_lt_two_pow (lt_of_lt_of_le h (Nat.pow_le_pow_right (by norm_num) hik))]

theorem shiftRight_land_distrib (a b k : Nat) :
    (a &&& b) >>> k = (a >>> k) &&& (b >>> k) := by
  apply Nat.eq_of_testBit_eq
  intro i
  simp [Nat.testBit_shiftRight, Nat.testBit_land]

theorem decode_full (op : Nat) : (OpCodeData.decode op).full_opcode = op := rfl

theorem decode_x (op : Nat) : (OpCodeData.decode op).x = op / 256 % 16 := by
  show (op / 256 % 256) &&& 15 = op / 256 % 16
  rw [land_fifteen, Nat.mod_mod_of_dvd _ (by norm_num)]

theorem decode_y (op : Nat) : (OpCodeData.decode op).y = op / 16 % 16 := by
  show (op % 256 &&& 240) >>> 4 = op / 16 % 16
  rw [shiftRight_land_distrib]
  have h240 : (240 : Nat) >>> 4 = 15 := by norm_num [Nat.shiftRight_eq_div_pow]
  rw [h240, land_fifteen, Nat.shiftRight_eq_div_pow]
  norm_num
  omega

theorem decode_n (op : Nat) : (OpCodeData.decode op).n = op % 16 := by
  show (op % 256) &&& 15 = op % 16
  rw [land_fifteen, Nat.mod_mod_of_dvd _ (by norm_num)]

theorem decode_nn (op : Nat) : (OpCodeData.decode op).nn = op % 256 := rfl

theorem decode_nnn (op : Nat) : (OpCodeData.decode op).nnn = op % 4096 := by
  show ((op / 256 % 256 &&& 15) <<< 8) ||| (op % 256) = op % 4096
  rw [land_fifteen, Nat.mod_mod_of_dvd _ (by norm_num), Nat.shiftLeft_eq]
  rw [lor_disjoint_pow _ _ 8 (by omega)]
  omega

theorem update_timer_zero (acc dt : Nat) : update_timer 0 acc dt = (0, acc) := by
  simp [update_timer]

theorem ut_5_0 : update_timer 5 0 17 = (5, 17) := by
  rw [update_timer]
  norm_num
  rw [timerLoop]
  norm_num

theorem ut_5 : update_timer 5 17 17 = (4, 17) := by
  rw [update_timer]
  norm_num
  rw [timerLoop]
  norm_num
  rw [timerLoop]
  norm_num

theorem ut_4 : update_timer 4 17 17 = (3, 17) := by
  rw [update_timer]
  norm_num
  rw [timerLoop]
  norm_num
  rw [timerLoop]
  norm_num

theorem ut_3 : update_timer 3 17 17 = (2, 17) := by
  rw [update_timer]
  norm_num
  rw [timerLoop]
  norm_num
  rw [timerLoop]
  norm_num

theorem ut_2 : update_timer 2 17 17 = (1, 17) := by
  rw [update_timer]
  norm_num
  rw [timerLoop]
  norm_num
  rw [timerLoop]
  norm_num

theorem ut_1 : update_timer 1 17 17 = (0, 0) := by
  rw [update_timer]
  norm_num
  rw [timerLoop]
  norm_num

theorem timer_five_steps : timerStep17^[5] (5, 0) = (1, 17) := by
  show timerStep17 (timerStep17 (timerStep17 (timerStep17 (timerStep17 (5, 0))))) = (1, 17)
  simp only [timerStep17, ut_5_0, ut_5, ut_4, ut_3, ut_2]

theorem timer_six_steps : timerStep17^[6] (5, 0) = (0, 0) := by
  have h5 := timer_five_steps
  calc timerStep17^[6] (5, 0) = timerStep17 (timerStep17^[5] (5, 0)) := by
        rw [Function.iterate_succ_apply' timerStep17 5 (5, 0)]
    _ = (0, 0) := by rw [h5]; exact ut_1

theorem ut_100 : update_timer 5 0 100 = (0, 0) := by
  rw [update_timer]
  norm_num
  rw [timerLoop]
  norm_num
  rw [timerLoop]
  norm_num
  rw [timerLoop]
  norm_num
  rw [timerLoop]
  norm_num
  rw [timerLoop]
  norm_num

theorem decode_reconstruct (op : Nat) :
    op % 4096 =
      (((OpCodeData.decode op).x <<< 8) ||| ((OpCodeData.decode op).y <<< 4)) |||
        (OpCodeData.decode op).n := by
  rw [decode_x, decode_y, decode_n, Nat.shiftLeft_eq, Nat.shiftLeft_eq]
  rw [lor_disjoint_pow (op / 16 % 16 * 2 ^ 4) (op / 256 % 16) 8 (by omega)]
  rw [show op / 256 % 16 * 2 ^ 8 + op / 16 % 16 * 2 ^ 4
      = (op / 256 % 16 * 2 ^ 4 + op / 16 % 16) * 2 ^ 4 by ring]
  rw [lor_disjoint_pow (op % 16) _ 4 (by omega)]
  omega

theorem decode_nnn_identity (op : Nat) :
    (OpCodeData.decode op).nnn =
      (((OpCodeData.decode op).x <<< 8) ||| (OpCodeData.decode op).nn) &&& 0xFFF := by
  rw [decode_nnn, decode_x, decode_nn]
  rw [Nat.shiftLeft_eq, lor_disjoint_pow (op % 256) (op / 256 % 16) 8 (by omega)]
  rw [show (0xFFF : Nat) = 2 ^ 12 - 1 by norm_num, land_two_pow_sub_one]
  omega

/-! ### Claim C1 (timer decay) -/

/-- C1, counterexample: starting from a timer register holding 5 with a
zero accumulator, five successive updates of 17 ms each do NOT decrement
the timer to 0 — the strict comparison against the 17 ms period absorbs
the first step, so the timer is still 1. -/
theorem timer_five_17ms_steps_do_not_reach_zero :
    ¬ (timerStep17^[5] (5, 0)).1 = 0 := by
  rw [timer_five_steps]
  simp

/-- C1, amended: starting at 5 with a zero accumulator, five 17 ms
updates leave the timer at 1 (with 17 ms accumulated); a sixth 17 ms
update drains it to 0, any update of a zero timer leaves it at 0, and a
single 100 ms update drains a timer holding 5 to exactly 0 without
underflowing. -/
theorem timer_decay_behavior :
    timerStep17^[5] (5, 0) = (1, 17)
    ∧ timerStep17^[6] (5, 0) = (0, 0)
    ∧ (∀ acc dt, update_timer 0 acc dt = (0, acc))
    ∧ update_timer 5 0 100 = (0, 0) :=
  ⟨timer_five_steps, timer_six_steps, update_timer_zero, ut_100⟩

/-! ### Claim C2 (opcode decoding) -/

/-- C2, counterexample: at input 0x1B3D the claimed identity
full_opcode == (x shl 12) or (y shl 8) or (n shl 4) or (nn and 0xF)
fails — the left side is 0x1B3D while the right side is 0xB3DD. -/
theorem decode_claimed_identity_fails :
    ¬ ((OpCodeData.decode 0x1B3D).full_opcode =
      ((((OpCodeData.decode 0x1B3D).x <<< 12) |||
        ((OpCodeData.decode 0x1B3D).y <<< 8)) |||
        ((OpCodeData.decode 0x1B3D).n <<< 4)) |||
        ((OpCodeData.decode 0x1B3D).nn &&& 0xF)) := by
  decide

/-- C2, amended: decoding is total and pure; for every input, x is bits
8-11, y bits 4-7, n bits 0-3, nn bits 0-7, nnn bits 0-11 of the opcode,
the low twelve bits of the full opcode are exactly
(x shl 8) or (y shl 4) or n, and nnn == ((x shl 8) or nn) and 0xFFF. -/
theorem decode_fields_and_identities (op : Nat) :
    (OpCodeData.decode op).full_opcode = op
    ∧ (OpCodeData.decode op).x = op / 256 % 16
    ∧ (OpCodeData.decode op).y = op / 16 % 16
    ∧ (OpCodeData.decode op).n = op % 16
    ∧ (OpCodeData.decode op).nn = op % 256
    ∧ (OpCodeData.decode op).nnn = op % 4096
    ∧ op % 4096 =
        (((OpCodeData.decode op).x <<< 8) ||| ((OpCodeData.decode op).y <<< 4)) |||
          (OpCodeData.decode op).n
    ∧ (OpCodeData.decode op).nnn =
        (((OpCodeData.decode op).x <<< 8) ||| (OpCodeData.decode op).nn) &&& 0xFFF :=
  ⟨decode_full op, decode_x op, decode_y op, decode_n op, decode_nn op,
    decode_nnn op, decode_reconstruct op, decode_nnn_identity op⟩

/-! ### Claim C3 (register addition, opcode family 8XY4) -/

theorem sat_ne_wrap (a b : Nat) (ha : a < 256) (hb : b < 256) :
    (saturating_add8 a b ≠ wrapping_add8 a b) ↔ 255 < a + b := by
  rw [saturating_add8, wrapping_add8, Nat.min_def]
  split_ifs <;> omega

/-- C3: for register values a, b (of registers X and Y) below 256,
register addition stores (a+b) mod 256 in register X, sets register 0xF
to 1 exactly when a+b exceeds 255 and to 0 otherwise (this flag write
wins even when X is 0xF itself), leaves every other register alone, and
touches nothing else in the machine state. -/
theorem add_registers_spec (s : Chip8State) (d : OpCodeData)
    (ha : s.gp_registers d.x < 256) (hb : s.gp_registers d.y < 256) :
    (addRegistersExec s d).isSome = true
    ∧ ((addRegistersExec s d).getD s).gp_registers 15 =
        (if 255 < s.gp_registers d.x + s.gp_registers d.y then 1 else 0)
    ∧ (d.x ≠ 15 → ((addRegistersExec s d).getD s).gp_registers d.x =
        (s.gp_registers d.x + s.gp_registers d.y) % 256)
    ∧ (∀ i, i ≠ d.x → i ≠ 15 →
        ((addRegistersExec s d).getD s).gp_registers i = s.gp_registers i)
    ∧ ((addRegistersExec s d).getD s).pc = s.pc
    ∧ ((addRegistersExec s d).getD s).memory = s.memory
    ∧ ((addRegistersExec s d).getD s).stack = s.stack
    ∧ ((addRegistersExec s d).getD s).index_register = s.index_register
    ∧ ((addRegistersExec s d).getD s).display = s.display
    ∧ ((addRegistersExec s d).getD s).delay_timer = s.delay_timer
    ∧ ((addRegistersExec s d).getD s).sound_timer = s.sound_timer
    ∧ ((addRegistersExec s d).getD s).key_state = s.key_state := by
  refine ⟨rfl, ?_, ?_, ?_, rfl, rfl, rfl, rfl, rfl, rfl, rfl, rfl⟩
  · simp only [addRegistersExec, Option.getD_some]
    by_cases h : 255 < s.gp_registers d.x + s.gp_registers d.y
    · simp [updFn, (sat_ne_wrap _ _ ha hb).mpr h, h]
    · have h2 : ¬ (saturating_add8 (s.gp_registers d.x) (s.gp_registers d.y)
          ≠ wrapping_add8 (s.gp_registers d.x) (s.gp_registers d.y)) :=
        fun hc => h ((sat_ne_wrap _ _ ha hb).mp hc)
      simp [updFn, h2, h]
  · intro hx
    simp only [addRegistersExec, Option.getD_some]
    simp [updFn, hx, wrapping_add8]
  · intro i hix hi15
    simp only [addRegistersExec, Option.getD_some]
    simp [updFn, hix, hi15]

/-- C3, witness at the specification's own example a = 0xA2, b = 0x7F in
registers 2 and 3 (opcode 0x8234), with a stale value 0xDF in register
0xF. -/
theorem add_registers_spec_witness :
    (addWitState.gp_registers (OpCodeData.decode 0x8234).x < 256
      ∧ addWitState.gp_registers (OpCodeData.decode 0x8234).y < 256)
    ∧ ((addRegistersExec addWitState (OpCodeData.decode 0x8234)).isSome = true
    ∧ ((addRegistersExec addWitState (OpCodeData.decode 0x8234)).getD addWitState).gp_registers 15 =
        (if 255 < addWitState.gp_registers (OpCodeData.decode 0x8234).x +
          addWitState.gp_registers (OpCodeData.decode 0x8234).y then 1 else 0)
    ∧ ((OpCodeData.decode 0x8234).x ≠ 15 →
        ((addRegistersExec addWitState (OpCodeData.decode 0x8234)).getD addWitState).gp_registers
            (OpCodeData.decode 0x8234).x =
          (addWitState.gp_registers (OpCodeData.decode 0x8234).x +
            addWitState.gp_registers (OpCodeData.decode 0x8234).y) % 256)
    ∧ (∀ i, i ≠ (OpCodeData.decode 0x8234).x → i ≠ 15 →
        ((addRegistersExec addWitState (OpCodeData.decode 0x8234)).getD addWitState).gp_registers i =
          addWitState.gp_registers i)
    ∧ ((addRegistersExec addWitState (OpCodeData.decode 0x8234)).getD addWitState).pc = addWitState.pc
    ∧ ((addRegistersExec addWitState (OpCodeData.decode 0x8234)).getD addWitState).memory = addWitState.memory
    ∧ ((addRegistersExec addWitState (OpCodeData.decode 0x8234)).getD addWitState).stack = addWitState.stack
    ∧ ((addRegistersExec addWitState (OpCodeData.decode 0x8234)).getD addWitState).index_register = addWitState.index_register
    ∧ ((addRegistersExec addWitState (OpCodeData.decode 0x8234)).getD addWitState).display = addWitState.display
    ∧ ((addRegistersExec addWitState (OpCodeData.decode 0x8234)).getD addWitState).delay_timer = addWitState.delay_timer
    ∧ ((addRegistersExec addWitState (OpCodeData.decode 0x8234)).getD addWitState).sound_timer = addWitState.sound_timer
    ∧ ((addRegistersExec addWitState (OpCodeData.decode 0x8234)).getD addWitState).key_state = addWitState.key_state) :=
  ⟨⟨by decide, by decide⟩,
    add_registers_spec addWitState (OpCodeData.decode 0x8234) (by decide) (by decide)⟩

/-! ### Claim C4 (16-bit address wraparound) -/

/-- C4: JumpOffset sets PC to (PC + nnn + register 0) mod 2^16 and leaves
the rest of the state alone; AddIndexRegister sets the index register to
(index + register X) mod 2^16, sets register 0xF to 1 exactly when the
resulting index exceeds 0xFFF and to 0 otherwise, and leaves PC and the
other registers alone. -/
theorem address_wraparound_spec (s : Chip8State) (d : OpCodeData) :
    ((jumpOffsetExec s d).getD s).pc = (s.pc + d.nnn + s.gp_registers 0) % 65536
    ∧ ((jumpOffsetExec s d).getD s).gp_registers = s.gp_registers
    ∧ ((jumpOffsetExec s d).getD s).index_register = s.index_register
    ∧ ((jumpOffsetExec s d).getD s).memory = s.memory
    ∧ ((addIndexRegisterExec s d).getD s).index_register =
        (s.index_register + s.gp_registers d.x) % 65536
    ∧ (((addIndexRegisterExec s d).getD s).gp_registers 15 = 1 ↔
        0xFFF < ((addIndexRegisterExec s d).getD s).index_register)
    ∧ (((addIndexRegisterExec s d).getD s).gp_registers 15 = 0 ↔
        ((addIndexRegisterExec s d).getD s).index_register ≤ 0xFFF)
    ∧ ((addIndexRegisterExec s d).getD s).pc = s.pc
    ∧ ((addIndexRegisterExec s d).getD s).memory = s.memory
    ∧ (∀ i, i ≠ 15 →
        ((addIndexRegisterExec s d).getD s).gp_registers i = s.gp_registers i) := by
  refine ⟨rfl, rfl, rfl, rfl, rfl, ?_, ?_, rfl, rfl, ?_⟩
  · simp only [addIndexRegisterExec, Option.getD_some]
    by_cases h : 4095 < (s.index_register + s.gp_registers d.x) % 65536
    · simp [updFn, h]
    · simp [updFn, h]
  · simp only [addIndexRegisterExec, Option.getD_some]
    by_cases h : 4095 < (s.index_register + s.gp_registers d.x) % 65536
    · simp [updFn, h]
    · simp [updFn, h]
      omega
  · intro i hi
    simp only [addIndexRegisterExec, Option.getD_some]
    simp [updFn, hi]

/-! ### Display characterization lemmas -/

theorem flipPixel_apply (D : DisplayGrid) (y x py px : Nat) :
    flipPixel D y x py px = if py = y ∧ px = x then !(D py px) else D py px := rfl

theorem apply_row_loop (b cx cy : Nat) : ∀ (n : Nat), n ≤ 8 → ∀ (D : DisplayGrid) (py px : Nat),
    ((List.range n).foldl
      (fun d x => if Nat.testBit b (7 - x % 8) then flipPixel d cy (cx + x) else d) D) py px
    = if py = cy ∧ cx ≤ px ∧ px < cx + n ∧ Nat.testBit b (7 - (px - cx)) = true
      then !(D py px) else D py px := by
  intro n
  induction n with
  | zero =>
    intro _ D py px
    simp only [List.range_zero, List.foldl_nil]
    rw [if_neg]
    rintro ⟨_, h2, h3, _⟩
    omega
  | succ n ih =>
    intro hn D py px
    rw [List.range_succ, List.foldl_append]
    simp only [List.foldl_cons, List.foldl_nil]
    have hn8 : n % 8 = n := Nat.mod_eq_of_lt (by omega)
    rw [hn8]
    have hin := ih (by omega) D py px
    by_cases hb : Nat.testBit b (7 - n) = true
    · rw [if_pos hb, flipPixel_apply, hin]
      by_cases hpp : py = cy ∧ px = cx + n
      · rw [if_pos hpp]
        rw [if_neg (by rintro ⟨_, _, h3, _⟩; omega)]
        rw [if_pos (by refine ⟨hpp.1, by omega, by omega, ?_⟩; rw [hpp.2]; simpa using hb)]
      · rw [if_neg hpp]
        by_cases hold : py = cy ∧ cx ≤ px ∧ px < cx + n ∧ Nat.testBit b (7 - (px - cx)) = true
        · rw [if_pos hold, if_pos ⟨hold.1, hold.2.1, by omega, hold.2.2.2⟩]
        · rw [if_neg hold]
          rw [if_neg]
          rintro ⟨h1, h2, h3, h4⟩
          by_cases hx : px = cx + n
          · exact hpp ⟨h1, hx⟩
          · exact hold ⟨h1, h2, by omega, h4⟩
    · rw [if_neg hb, hin]
      by_cases hold : py = cy ∧ cx ≤ px ∧ px < cx + n ∧ Nat.testBit b (7 - (px - cx)) = true
      · rw [if_pos hold, if_pos ⟨hold.1, hold.2.1, by omega, hold.2.2.2⟩]
      · rw [if_neg hold]
        rw [if_neg]
        rintro ⟨h1, h2, h3, h4⟩
        by_cases hx : px = cx + n
        · have h7 : 7 - (px - cx) = 7 - n := by omega
          rw [h7] at h4
          exact hb h4
        · exact hold ⟨h1, h2, by omega, h4⟩

theorem apply_row_char (D : DisplayGrid) (b cx cy py px : Nat) :
    apply_row D b cx cy py px
    = if rowHit b cx cy py px = true then !(D py px) else D py px := by
  rw [apply_row]
  by_cases he : min ((cx + 8) % 256) 64 ≤ cx
  · rw [if_pos he]
    rw [if_neg]
    rw [rowHit]
    simp only [Bool.and_eq_true, decide_eq_true_eq]
    rintro ⟨⟨⟨h1, h2⟩, h3⟩, h4⟩
    omega
  · rw [if_neg he]
    have hle : min ((cx + 8) % 256) 64 - cx ≤ 8 := by
      have : (cx + 8) % 256 ≤ cx + 8 := Nat.mod_le _ _
      omega
    rw [apply_row_loop b cx cy (min ((cx + 8) % 256) 64 - cx) hle D py px]
    rw [rowHit]
    by_cases hc : py = cy ∧ cx ≤ px ∧ px < cx + (min ((cx + 8) % 256) 64 - cx)
        ∧ Nat.testBit b (7 - (px - cx)) = true
    · rw [if_pos hc, if_pos]
      simp only [Bool.and_eq_true, decide_eq_true_eq]
      exact ⟨⟨⟨hc.1, hc.2.1⟩, by omega⟩, hc.2.2.2⟩
    · rw [if_neg hc, if_neg]
      simp only [Bool.and_eq_true, decide_eq_true_eq]
      rintro ⟨⟨⟨h1, h2⟩, h3⟩, h4⟩
      exact hc ⟨h1, h2, by omega, h4⟩

theorem applySpriteAux_char (cx cy py px : Nat) : ∀ (S : List Nat) (i : Nat) (D : DisplayGrid),
    applySpriteAux D S cx cy i py px
    = if spriteHit S cx cy i py px = true then !(D py px) else D py px := by
  intro S
  induction S with
  | nil =>
    intro i D
    simp [applySpriteAux, spriteHit]
  | cons b rest ih =>
    intro i D
    by_cases hbr : 32 ≤ i + cy
    · simp [applySpriteAux, spriteHit, hbr]
    · rw [show applySpriteAux D (b :: rest) cx cy i
          = applySpriteAux (apply_row D b cx (cy + i % 32)) rest cx cy (i + 1) from by
        rw [applySpriteAux]; rw [if_neg hbr]]
      rw [ih (i + 1) (apply_row D b cx (cy + i % 32))]
      rw [apply_row_char]
      rw [show spriteHit (b :: rest) cx cy i py px
          = xor (rowHit b cx (cy + i % 32) py px) (spriteHit rest cx cy (i + 1) py px) from by
        rw [spriteHit]; rw [if_neg hbr]]
      cases hrh : rowHit b cx (cy + i % 32) py px <;>
        cases hsh : spriteHit rest cx cy (i + 1) py px <;> simp [hrh, hsh]

theorem spriteHit_spec (cx py px : Nat) (hcx : cx < 64) : ∀ (S : List Nat) (cy i : Nat),
    spriteHit S cx cy i py px =
      (decide (cy + i ≤ py) && decide (py - (cy + i) < S.length) && decide (py < 32) &&
       decide (cx ≤ px) && decide (px < cx + 8) && decide (px < 64) &&
       Nat.testBit (S.getD (py - (cy + i)) 0) (7 - (px - cx))) := by
  intro S
  induction S with
  | nil =>
    intro cy i
    simp [spriteHit]
  | cons b rest ih =>
    intro cy i
    by_cases hbr : 32 ≤ i + cy
    · rw [show spriteHit (b :: rest) cx cy i py px = false from by
        rw [spriteHit]; rw [if_pos hbr]]
      symm
      rw [Bool.eq_false_iff]
      intro h
      simp only [Bool.and_eq_true, decide_eq_true_eq] at h
      obtain ⟨⟨⟨⟨⟨⟨h1, h2⟩, h3⟩, h4⟩, h5⟩, h6⟩, h7⟩ := h
      omega
    · rw [show spriteHit (b :: rest) cx cy i py px
          = xor (rowHit b cx (cy + i % 32) py px) (spriteHit rest cx cy (i + 1) py px) from by
        rw [spriteHit]; rw [if_neg hbr]]
      rw [ih cy (i + 1)]
      have hi32 : i % 32 = i := Nat.mod_eq_of_lt (by omega)
      rw [hi32]
      have hmin : min ((cx + 8) % 256) 64 = min (cx + 8) 64 := by
        rw [Nat.mod_eq_of_lt (by omega)]
      rcases Nat.lt_trichotomy py (cy + i) with hlt | heq | hgt
      · have hrow : rowHit b cx (cy + i) py px = false := by
          rw [rowHit, Bool.eq_false_iff]
          intro h
          simp only [Bool.and_eq_true, decide_eq_true_eq] at h
          omega
        have htail : (decide (cy + (i + 1) ≤ py) &&
            decide (py - (cy + (i + 1)) < rest.length) && decide (py < 32) &&
            decide (cx ≤ px) && decide (px < cx + 8) && decide (px < 64) &&
            Nat.testBit (rest.getD (py - (cy + (i + 1))) 0) (7 - (px - cx))) = false := by
          rw [Bool.eq_false_iff]
          intro h
          simp only [Bool.and_eq_true, decide_eq_true_eq] at h
          omega
        have hrhs : (decide (cy + i ≤ py) &&
            decide (py - (cy + i) < (b :: rest).length) && decide (py < 32) &&
            decide (cx ≤ px) && decide (px < cx + 8) && decide (px < 64) &&
            Nat.testBit ((b :: rest).getD (py - (cy + i)) 0) (7 - (px - cx))) = false := by
          rw [Bool.eq_false_iff]
          intro h
          simp only [Bool.and_eq_true, decide_eq_true_eq] at h
          omega
        rw [hrow, htail, hrhs]
        rfl
      · have h0 : py - (cy + i) = 0 := by omega
        have htail : (decide (cy + (i + 1) ≤ py) &&
            decide (py - (cy + (i + 1)) < rest.length) && decide (py < 32) &&
            decide (cx ≤ px) && decide (px < cx + 8) && decide (px < 64) &&
            Nat.testBit (rest.getD (py - (cy + (i + 1))) 0) (7 - (px - cx))) = false := by
          rw [Bool.eq_false_iff]
          intro h
          simp only [Bool.and_eq_true, decide_eq_true_eq] at h
          omega
        rw [htail, Bool.xor_false]
        rw [rowHit, hmin, h0]
        rw [List.getD_cons_zero]
        cases ht : Nat.testBit b (7 - (px - cx))
        · simp
        · rw [Bool.eq_iff_iff]
          simp only [Bool.and_true, Bool.and_eq_true, decide_eq_true_eq, List.length_cons]
          omega
      · have hrow : rowHit b cx (cy + i) py px = false := by
          rw [rowHit, Bool.eq_false_iff]
          intro h
          simp only [Bool.and_eq_true, decide_eq_true_eq] at h
          omega
        rw [hrow, Bool.false_xor]
        have hshift : py - (cy + i) = (py - (cy + (i + 1))) + 1 := by omega
        rw [hshift, List.getD_cons_succ]
        cases ht : Nat.testBit (rest.getD (py - (cy + (i + 1))) 0) (7 - (px - cx))
        · simp
        · rw [Bool.eq_iff_iff]
          simp only [Bool.and_true, Bool.and_eq_true, decide_eq_true_eq, List.length_cons]
          omega


/-! ### Claim C5 (sprite clipping) and Claim C6 (sprite involution) -/

/-- C5: with the anchor (cx, cy) already reduced modulo 64 and 32, a
sprite draw flips exactly the pixels described by spriteSpec: sprite byte
i is drawn as the row at cy + i only when cy + i < 32 (rows past the
bottom edge are skipped), within a row bits are XOR-ed only into columns
cx through min(cx+8, 64) - 1, a pixel is flipped exactly when the
corresponding sprite bit is 1, and every other pixel is unchanged. -/
theorem sprite_clipping_spec (D : DisplayGrid) (S : List Nat) (cx cy : Nat)
    (hcx : cx < 64) (hcy : cy < 32) (py px : Nat) :
    apply_sprite D S cx cy py px =
      if spriteSpec S cx cy py px = true then !(D py px) else D py px := by
  rw [apply_sprite, applySpriteAux_char]
  rw [spriteHit_spec cx py px hcx S cy 0]
  rw [spriteSpec]
  simp only [Nat.add_zero]

/-- C5, witness: a concrete draw of the two-row sprite [0xF7, 0x93] at
the bottom-right anchor (60, 30) on the one-dot display, observed at
pixel (30, 61). -/
theorem sprite_clipping_spec_witness :
    (60 < 64 ∧ 30 < 32)
    ∧ apply_sprite oneDotGrid [0xF7, 0x93] 60 30 30 61 =
        (if spriteSpec [0xF7, 0x93] 60 30 30 61 = true
         then !(oneDotGrid 30 61) else oneDotGrid 30 61) :=
  ⟨⟨by decide, by decide⟩,
    sprite_clipping_spec oneDotGrid [0xF7, 0x93] 60 30 (by decide) (by decide) 30 61⟩

/-- C6: drawing any sprite twice in succession at the same coordinates
restores the original display, for every display state, sprite byte list
and coordinate pair. -/
theorem sprite_double_draw_involution (D : DisplayGrid) (S : List Nat) (cx cy : Nat) :
    apply_sprite (apply_sprite D S cx cy) S cx cy = D := by
  funext py px
  rw [apply_sprite, apply_sprite, applySpriteAux_char, applySpriteAux_char]
  cases h : spriteHit S cx cy 0 py px <;> simp [h]

/-! ### Claim C7 (dispatch order and UnsupportedOpcode) -/

theorem executeAux_eq_find (d : OpCodeData) : ∀ (tbl : List Instr) (s : Chip8State),
    executeAux d tbl s =
      match tbl.find? (fun i => decide (d.full_opcode &&& i.mask = i.val)) with
      | some i => (i.exec s d).map (fun s2 => (Except.ok (), s2))
      | none => some (Except.error (Error.UnsupportedOpcode d.full_opcode), s) := by
  intro tbl
  induction tbl with
  | nil => intro s; rfl
  | cons i rest ih =>
    intro s
    rw [executeAux]
    by_cases h : d.full_opcode &&& i.mask = i.val
    · rw [if_pos h, List.find?_cons_of_pos _ (by simpa using h)]
    · rw [if_neg h, List.find?_cons_of_neg _ (by simpa using h), ih s]

theorem executeAux_error (d : OpCodeData) : ∀ (tbl : List Instr) (s : Chip8State)
    (e : Error) (s2 : Chip8State),
    executeAux d tbl s = some (Except.error e, s2) →
    e = Error.UnsupportedOpcode d.full_opcode ∧ s2 = s := by
  intro tbl
  induction tbl with
  | nil =>
    intro s e s2 h
    rw [executeAux] at h
    simp only [Option.some.injEq, Prod.mk.injEq, Except.error.injEq] at h
    exact ⟨h.1.symm, h.2.symm⟩
  | cons i rest ih =>
    intro s e s2 h
    rw [executeAux] at h
    by_cases hm : d.full_opcode &&& i.mask = i.val
    · rw [if_pos hm] at h
      cases hex : i.exec s d with
      | none => rw [hex] at h; simp at h
      | some st => rw [hex] at h; simp at h
    · rw [if_neg hm] at h
      exact ih s e s2 h

/-- C7: execute runs the first entry, in table order, whose
(full_opcode and mask) equals its value (List.find? selects exactly the
first match), and the search comes up empty — in which case execute
returns the UnsupportedOpcode error carrying the raw opcode on the
untouched state — precisely when no entry of the table matches. -/
theorem dispatch_first_match_and_unsupported (rnd : Nat) (s : Chip8State) (d : OpCodeData) :
    (execute rnd s d =
      match (supported_instructions rnd).find?
          (fun i => decide (d.full_opcode &&& i.mask = i.val)) with
      | some i => (i.exec s d).map (fun s2 => (Except.ok (), s2))
      | none => some (Except.error (Error.UnsupportedOpcode d.full_opcode), s))
    ∧ ((supported_instructions rnd).find?
          (fun i => decide (d.full_opcode &&& i.mask = i.val)) = none
        ↔ ∀ i ∈ supported_instructions rnd, d.full_opcode &&& i.mask ≠ i.val) := by
  refine ⟨executeAux_eq_find d _ s, ?_⟩
  rw [List.find?_eq_none]
  simp

/-! ### Claim C8 (key skips and the key index) -/

/-- C8, counterexample: with register 5 holding 16 and every key pressed,
the claim says the skip-if-key instruction (opcode 0xE59E) consults key
16 and 0xF = 0, finds it pressed and advances PC by 2; the code instead
indexes the 16-entry key array at 16, out of bounds, and aborts (none),
so the predicted post-state is not produced. -/
theorem skip_if_key_out_of_range_counterexample :
    skipIfKeyExec keyOutOfRangeState (OpCodeData.decode 0xE59E) = none
    ∧ (skipIfKeyExec keyOutOfRangeState (OpCodeData.decode 0xE59E) ≠
        some { keyOutOfRangeState with pc := (keyOutOfRangeState.pc + 2) % 65536 }) :=
  ⟨rfl, fun hcon => Option.noConfusion hcon⟩

/-- C8, amended: for every value v held in register X with v at most 0xF
(where v and 0xF = v), skip-if-key and skip-if-not-key consult the
pressed state of key v and advance PC by an additional 2 bytes exactly
when that key is (respectively, is not) pressed, leaving PC unchanged
otherwise; for v above 0xF the key lookup indexes the 16-entry key array
out of bounds and the step aborts instead of consulting key v and 0xF. -/
theorem key_skip_low_values (s : Chip8State) (d : OpCodeData)
    (hv : s.gp_registers d.x < 16) :
    skipIfKeyExec s d = some (if s.key_state (s.gp_registers d.x) = true
        then { s with pc := (s.pc + 2) % 65536 } else s)
    ∧ skipIfNotKeyExec s d = some (if s.key_state (s.gp_registers d.x) = true
        then s else { s with pc := (s.pc + 2) % 65536 }) := by
  constructor
  · rw [skipIfKeyExec, Chip8State.is_pressed, if_pos hv]
  · rw [skipIfNotKeyExec, Chip8State.is_pressed, if_pos hv]

/-- C8, witness: register 5 holds 0xB (below 16) and exactly key 0xB is
pressed; the opcode is 0xE59E, so X = 5. -/
theorem key_skip_low_values_witness :
    (keyInRangeState.gp_registers (OpCodeData.decode 0xE59E).x < 16)
    ∧ (skipIfKeyExec keyInRangeState (OpCodeData.decode 0xE59E)
        = some (if keyInRangeState.key_state
              (keyInRangeState.gp_registers (OpCodeData.decode 0xE59E).x) = true
            then { keyInRangeState with pc := (keyInRangeState.pc + 2) % 65536 }
            else keyInRangeState)
      ∧ skipIfNotKeyExec keyInRangeState (OpCodeData.decode 0xE59E)
        = some (if keyInRangeState.key_state
              (keyInRangeState.gp_registers (OpCodeData.decode 0xE59E).x) = true
            then keyInRangeState
            else { keyInRangeState with pc := (keyInRangeState.pc + 2) % 65536 })) :=
  ⟨by decide, key_skip_low_values keyInRangeState (OpCodeData.decode 0xE59E) (by decide)⟩

/-! ### Claim C9 (state on an UnsupportedOpcode step) -/

/-- C9: whenever step returns the UnsupportedOpcode error, the error
carries the two fetched bytes at the old PC, and the final state differs
from the initial one only by the three pre-dispatch effects: the key
snapshot is the supplied input, the two timers and their accumulators are
decayed by the supplied duration, and PC advanced by exactly 2 (wrapping
at 16 bits); memory, all general-purpose registers, the stack, the index
register and the display are untouched. -/
theorem step_unsupported_frame (rnd : Nat) (s : Chip8State) (k : Nat → Bool) (dt : Nat)
    (e : Error) (s2 : Chip8State)
    (h : step rnd s k dt = some (Except.error e, s2)) :
    e = Error.UnsupportedOpcode (s.memory s.pc * 256 + s.memory (s.pc + 1))
    ∧ s2.memory = s.memory
    ∧ s2.gp_registers = s.gp_registers
    ∧ s2.stack = s.stack
    ∧ s2.index_register = s.index_register
    ∧ s2.display = s.display
    ∧ s2.pc = (s.pc + 2) % 65536
    ∧ s2.key_state = k
    ∧ s2.delay_timer = (update_timer s.delay_timer s.since_last_delay_update dt).1
    ∧ s2.since_last_delay_update = (update_timer s.delay_timer s.since_last_delay_update dt).2
    ∧ s2.sound_timer = (update_timer s.sound_timer s.since_last_sound_update dt).1
    ∧ s2.since_last_sound_update = (update_timer s.sound_timer s.since_last_sound_update dt).2 := by
  rw [step] at h
  by_cases hf : s.pc + 2 ≤ 4096
  · simp only [update_timers, fetchOpt, if_pos hf] at h
    obtain ⟨he, hs⟩ := executeAux_error _ _ _ _ _ h
    subst hs
    exact ⟨he, rfl, rfl, rfl, rfl, rfl, rfl, rfl, rfl, rfl, rfl, rfl⟩
  · simp only [update_timers, fetchOpt, if_neg hf] at h
    cases h

/-- C9, witness: the all-zero state fetches opcode 0x0000, which no table
entry matches, so the step fails with UnsupportedOpcode 0 having only
moved PC from 0 to 2. -/
theorem step_unsupported_frame_witness :
    (step 0 zeroState (fun _ => false) 0
      = some (Except.error (Error.UnsupportedOpcode 0), unsupportedWitnessEnd))
    ∧ (Error.UnsupportedOpcode 0
        = Error.UnsupportedOpcode
            (zeroState.memory zeroState.pc * 256 + zeroState.memory (zeroState.pc + 1))
      ∧ unsupportedWitnessEnd.memory = zeroState.memory
      ∧ unsupportedWitnessEnd.gp_registers = zeroState.gp_registers
      ∧ unsupportedWitnessEnd.stack = zeroState.stack
      ∧ unsupportedWitnessEnd.index_register = zeroState.index_register
      ∧ unsupportedWitnessEnd.display = zeroState.display
      ∧ unsupportedWitnessEnd.pc = (zeroState.pc + 2) % 65536
      ∧ unsupportedWitnessEnd.key_state = (fun _ => false)
      ∧ unsupportedWitnessEnd.delay_timer
          = (update_timer zeroState.delay_timer zeroState.since_last_delay_update 0).1
      ∧ unsupportedWitnessEnd.since_last_delay_update
          = (update_timer zeroState.delay_timer zeroState.since_last_delay_update 0).2
      ∧ unsupportedWitnessEnd.sound_timer
          = (update_timer zeroState.sound_timer zeroState.since_last_sound_update 0).1
      ∧ unsupportedWitnessEnd.since_last_sound_update
          = (update_timer zeroState.sound_timer zeroState.since_last_sound_update 0).2) :=
  ⟨rfl, step_unsupported_frame 0 zeroState (fun _ => false) 0
    (Error.UnsupportedOpcode 0) unsupportedWitnessEnd rfl⟩

/-! ### Claim C10 (fetch bounds) -/

/-- C10: the fetch stage reads the two bytes at memory[PC..] and succeeds
exactly when PC is at most 0xFFE; for every state whose PC is 0xFFF or
more the read is out of bounds, so the whole step aborts — PC at most
0xFFE is a precondition for step to be total. -/
theorem fetch_bounds (mem : Nat → Nat) (pc : Nat) :
    ((fetchOpt mem pc).isSome ↔ pc ≤ 0xFFE)
    ∧ (∀ rnd (s : Chip8State) k dt, 0xFFF ≤ s.pc → step rnd s k dt = none) := by
  constructor
  · rw [fetchOpt]
    by_cases h : pc + 2 ≤ 4096
    · simp only [if_pos h, Option.isSome_some, true_iff]
      omega
    · rw [if_neg h]
      simp only [Option.isSome_none]
      constructor
      · intro hx
        simp at hx
      · intro hx
        exact absurd hx (by omega)
  · intro rnd s k dt hpc
    rw [step]
    simp only [update_timers, fetchOpt]
    rw [if_neg (by omega)]

/-- C10, witness: with PC at 0xFFF the step aborts. -/
theorem fetch_bounds_witness :
    (0xFFF ≤ highPcState.pc)
    ∧ step 0 highPcState (fun _ => false) 0 = none :=
  ⟨by decide, (fetch_bounds (fun _ => 0) 0xFFF).2 0 highPcState (fun _ => false) 0 (by decide)⟩

end Chip8
